import Mathlib

/-!
Verification development for the pancake_bot event-ingestion core.

The definitions below are a shallow embedding of the Python source:

* `src/websocket/pancake_websocket.py` — the connection manager
  (`_send_message`, `_handle_message`);
* `src/events/page_events.py` — the page-event kinds;
* `src/receiver/page_event_handler.py` — the reconfiguration controller
  (`handle_page_event`, the `asyncio.Lock` serializing `_graceful_reload`);
* `src/receiver/receiver_service.py` — the update router
  (`handle_conversation_update`) and the debounce scheduler
  (`_schedule_message_with_debounce`).

Timestamps (`time.time()` values and debounce deadlines) are modelled as
rationals, Python dicts as insertion-ordered association lists, and the
cooperative `asyncio` task model as explicit state passing.
-/

namespace PancakeBot

/-- A JSON value, the shape of decoded WebSocket frames and payload fields. -/
inductive JValue where
  | null : JValue
  | bool (b : Bool) : JValue
  | num (n : Int) : JValue
  | str (s : String) : JValue
  | arr (elems : List JValue) : JValue
  | obj (fields : List (String × JValue)) : JValue
deriving Repr, BEq, Inhabited

/-- Python truthiness of a JSON value (`if event:` in `_handle_message`). -/
def jTruthy : JValue → Bool
  | .null => false
  | .bool b => b
  | .num n => n != 0
  | .str s => s != ""
  | .arr l => !l.isEmpty
  | .obj l => !l.isEmpty

/-! ## Connection manager: `PancakeWebSocketClient` -/

/-- State of `PancakeWebSocketClient` relevant to sending: whether
`self.websocket` is non-None, the `ref_counter`, and the `connected` flag. -/
structure WSClientState where
  websocket : Bool
  ref_counter : Nat
  connected : Bool
deriving Repr, DecidableEq

/-- The error raised by `_send_message` when no session is active
(`ConnectionError("WebSocket chưa được kết nối")`). -/
inductive WSError where
  | connectionError (msg : String) : WSError
deriving Repr, DecidableEq

/-- Embedding of `PancakeWebSocketClient._get_next_ref`: increment
`self.ref_counter` and return its decimal string. -/
def get_next_ref (s : WSClientState) : WSClientState × String :=
  ({ s with ref_counter := s.ref_counter + 1 }, toString (s.ref_counter + 1))

/-- Embedding of `PancakeWebSocketClient._send_message`: raise a connection
error if `self.websocket` is None, otherwise build the frame
`[ref, ref, channel, event, payload]` and hand it to the transport.  The
returned list is the frame passed to `websocket.send` (after JSON
serialization, which is injective on this shape). -/
def send_message (s : WSClientState) (channel event : String) (payload : JValue) :
    Except WSError (WSClientState × List JValue) :=
  if s.websocket = false then
    .error (.connectionError "WebSocket chưa được kết nối")
  else
    let sr := get_next_ref s
    .ok (sr.1, [.str sr.2, .str sr.2, .str channel, .str event, payload])

/-- A registered event handler: takes the frame payload, may raise
(modelled as `Except`).  Mirrors the callbacks stored in
`self.event_handlers`. -/
abbrev WSHandler := JValue → Except String Unit

/-- Run every handler in order, catching each one's exception at the
dispatch boundary (the inner `try/except` of `_handle_message`): a failing
handler's error is recorded and the remaining handlers still run. -/
def run_handlers : List WSHandler → JValue → List (Except String Unit)
  | [], _ => []
  | h :: hs, p => h p :: run_handlers hs p

/-- Result of `_handle_message` on one inbound frame: whether the frame was
dropped as malformed, and the outcome of every handler invocation. -/
structure HandleOutcome where
  malformed : Bool
  handlerResults : List (Except String Unit)
deriving Repr

/-- Look up the handlers registered for an event name.  `event_handlers` is
a dict keyed by strings, so a non-string `data[3]` matches nothing. -/
def handlersFor (registry : List (String × List WSHandler)) : JValue → List WSHandler
  | .str s =>
      match registry.find? (fun e => e.1 == s) with
      | some e => e.2
      | none => []
  | _ => []

/-- Embedding of `PancakeWebSocketClient._handle_message`.  The argument is
the result of `json.loads` (`none` = `JSONDecodeError`, caught and logged).
A frame that is not a list or has fewer than 4 elements is dropped.
Otherwise `event = data[3]` and `payload = data[4] if len(data) > 4 else {}`
and every matching handler runs, its own failure caught.  The function is
total: no input makes it propagate an error to the read loop. -/
def handle_message (registry : List (String × List WSHandler)) :
    Option JValue → HandleOutcome
  | none => ⟨true, []⟩
  | some data =>
    match data with
    | .arr elems =>
      if elems.length < 4 then ⟨true, []⟩
      else
        let event := elems.getD 3 .null
        let payload := elems.getD 4 (.obj [])
        if jTruthy event then
          ⟨false, run_handlers (handlersFor registry event) payload⟩
        else ⟨false, []⟩
    | _ => ⟨true, []⟩

/-! ## Page events and the reload lock -/

/-- The six members of `PageEventType` in `src/events/page_events.py`. -/
inductive PageEventType where
  | page_created
  | page_updated
  | page_deleted
  | page_activated
  | page_deactivated
  | pages_reloaded
deriving Repr, DecidableEq

/-- The `reload_events` set built in `PageEventHandler.handle_page_event`. -/
def reload_events : List PageEventType :=
  [.page_created, .page_activated, .page_deactivated, .page_deleted, .pages_reloaded]

/-- Embedding of `PageEventHandler.handle_page_event`: returns `true` iff
the event kind triggers `_graceful_reload` (membership in `reload_events`,
with the `PAGE_UPDATED` elif branch also reloading). -/
def handle_page_event (e : PageEventType) : Bool :=
  if reload_events.contains e then true
  else if e == .page_updated then true
  else false

/-- An operation on the single `asyncio.Lock` guarding `_graceful_reload`;
`tid` names the task performing it. -/
inductive LockAction where
  | acquire (tid : Nat)
  | release (tid : Nat)
deriving Repr, DecidableEq

/-- One step of the `asyncio.Lock` semantics: `acquire` proceeds only when
the lock is free (a blocked acquirer does not appear in the trace until it
actually gets the lock), `release` only by the holder. -/
def lockStep : Option Nat → LockAction → Option (Option Nat)
  | none, .acquire t => some (some t)
  | some _, .acquire _ => none
  | some h, .release t => if t == h then some none else none
  | none, .release _ => none

/-- Run a sequence of lock operations from a given lock state; `none` means
the sequence is not a possible execution. -/
def lockRun : Option Nat → List LockAction → Option (Option Nat)
  | s, [] => some s
  | s, a :: rest =>
    match lockStep s a with
    | some s2 => lockRun s2 rest
    | none => none

/-- A trace of lock operations that can actually happen starting from a
free lock. -/
def ValidLockTrace (tr : List LockAction) : Prop :=
  (lockRun none tr).isSome

instance (tr : List LockAction) : Decidable (ValidLockTrace tr) := by
  unfold ValidLockTrace; infer_instance

theorem lockRun_append (xs ys : List LockAction) :
    ∀ s, lockRun s (xs ++ ys) = (lockRun s xs).bind (fun s2 => lockRun s2 ys) := by
  induction xs with
  | nil => intro s; simp [lockRun]
  | cons a xs ih =>
    intro s
    simp only [List.cons_append, lockRun]
    cases lockStep s a with
    | none => simp
    | some s2 => simpa using ih s2

theorem release_before_reacquire (h : Nat) (l : List LockAction) (b : Nat)
    (rest : List LockAction)
    (hv : (lockRun (some h) (l ++ LockAction.acquire b :: rest)).isSome) :
    ∃ c, LockAction.release c ∈ l := by
  cases l with
  | nil =>
    simp [lockRun, lockStep] at hv
  | cons x l =>
    cases x with
    | acquire t => simp [lockRun, lockStep] at hv
    | release t => exact ⟨t, by simp⟩

/-! ## Update router: `ReceiverService.handle_conversation_update` -/

/-- One named-tag entry of a page config (`PageTag` in
`src/database/models.py`): tag ids are strings. -/
structure PageTag where
  tag_name : String
  tag_id : String
deriving Repr, DecidableEq

/-- One entry of `self.page_configs` as built by
`_load_page_configs_from_db`. -/
structure PageInfo where
  page_access_token : String
  page_name : String
  tags : List PageTag
deriving Repr, DecidableEq

/-- `self.page_configs`: an insertion-ordered dict from page id (string)
to page info. -/
abbrev PageConfigs := List (String × PageInfo)

/-- One element of the payload's `customers` array; `get` defaults apply
when a field is absent. -/
structure Customer where
  id : Option String
  name : Option String
deriving Repr, DecidableEq

/-- The fields `handle_conversation_update` reads from
`payload["conversation"]`; `none` models an absent key. -/
structure ConversationData where
  id : Option String
  page_id : Option Int
  last_sent_by_name : Option String
  customers : Option (List Customer)
  type : Option String
  updated_at : Option String
  tags : List Int
  snippet : Option String
deriving Repr, DecidableEq

/-- `self.last_processed`: dict from conversation id (possibly `None`) to
`(content, timestamp)`. -/
abbrev DedupMap := List (Option String × String × ℚ)

/-- Dict lookup in `last_processed`. -/
def dedupGet : DedupMap → Option String → Option (String × ℚ)
  | [], _ => none
  | e :: m, k => if e.1 == k then some e.2 else dedupGet m k

/-- Whether the dict has an entry for the key. -/
def dedupHas : DedupMap → Option String → Bool
  | [], _ => false
  | e :: m, k => e.1 == k || dedupHas m k

/-- Dict assignment `last_processed[conversation_id] = (content, now)`:
overwrite the key's entry in place, or prepend a fresh one. -/
def dedupSet (m : DedupMap) (k : Option String) (content : String) (t : ℚ) : DedupMap :=
  if dedupHas m k then
    m.map (fun e => if e.1 == k then (k, content, t) else e)
  else (k, content, t) :: m

/-- Python `str()` applied to the raw `page_id` payload field. -/
def strOfOptInt : Option Int → String
  | none => "None"
  | some n => toString n

/-- Whether `needle` occurs at the start of `hay` (character lists). -/
def startsWithChars : List Char → List Char → Bool
  | [], _ => true
  | _ :: _, [] => false
  | a :: as, b :: bs => a == b && startsWithChars as bs

/-- Whether `needle` occurs anywhere inside `hay` (character lists). -/
def containsChars (needle : List Char) : List Char → Bool
  | [] => needle.isEmpty
  | b :: bs => startsWithChars needle (b :: bs) || containsChars needle bs

/-- Python substring test `needle in hay`. -/
def strContains (hay needle : String) : Bool :=
  containsChars needle.data hay.data

/-- The Unicode simple lowercase mapping, as Python's `str.lower()`
applies it on the character ranges this system's data uses: Basic Latin
(A–Z), the Latin-1 Supplement letters (À–Þ except ×), Latin Extended-A
(Ā–Ž, so Đ and the tilde vowels Ĩ/Ũ), the Vietnamese horned vowels Ơ/Ư of
Latin Extended-B, the whole Latin Extended Additional block (every
Vietnamese tone-marked vowel: Ạ…Ỹ), capital sharp s, and the main
Cyrillic letters.  Characters outside these ranges — and Python's two
special cases, the Turkish İ (whose lowercase is two characters) and the
context-sensitive Greek final sigma — are left unchanged. -/
def lowerChar (c : Char) : Char :=
  let n := c.toNat
  if 0x41 ≤ n ∧ n ≤ 0x5A then Char.ofNat (n + 0x20)
  else if 0xC0 ≤ n ∧ n ≤ 0xDE ∧ n ≠ 0xD7 then Char.ofNat (n + 0x20)
  else if 0x100 ≤ n ∧ n ≤ 0x137 ∧ n % 2 = 0 ∧ n ≠ 0x130 then Char.ofNat (n + 1)
  else if 0x139 ≤ n ∧ n ≤ 0x148 ∧ n % 2 = 1 then Char.ofNat (n + 1)
  else if 0x14A ≤ n ∧ n ≤ 0x177 ∧ n % 2 = 0 then Char.ofNat (n + 1)
  else if n = 0x178 then Char.ofNat 0xFF
  else if 0x179 ≤ n ∧ n ≤ 0x17E ∧ n % 2 = 1 then Char.ofNat (n + 1)
  else if n = 0x1A0 ∨ n = 0x1AF then Char.ofNat (n + 1)
  else if 0x1E00 ≤ n ∧ n ≤ 0x1E95 ∧ n % 2 = 0 then Char.ofNat (n + 1)
  else if n = 0x1E9E then Char.ofNat 0xDF
  else if 0x1EA0 ≤ n ∧ n ≤ 0x1EFF ∧ n % 2 = 0 then Char.ofNat (n + 1)
  else if 0x400 ≤ n ∧ n ≤ 0x40F then Char.ofNat (n + 0x50)
  else if 0x410 ≤ n ∧ n ≤ 0x42F then Char.ofNat (n + 0x20)
  else c

/-- Python `s.lower()`, as a character list (via `lowerChar`). -/
def lowerChars (s : String) : List Char :=
  s.data.map lowerChar

/-- `conversation_data.get("customers", [{}])[0]` with its `get` defaults:
`none` models the `IndexError` raised when the payload carries an
explicitly empty `customers` array (caught by the handler's outer
`except`). -/
def extract_customer : Option (List Customer) → Option (String × String)
  | none => some ("", "No name")
  | some [] => none
  | some (c :: _) => some (c.id.getD "", c.name.getD "No name")

/-- The self-echo test of `handle_conversation_update`:
`any(bot_name.lower() in sender_name.lower() for bot_name in page_names if bot_name)`. -/
def isEchoSender (configs : PageConfigs) (sender_name : String) : Bool :=
  (configs.map (fun pc => pc.2.page_name)).any
    (fun bot_name =>
      bot_name != "" && containsChars (lowerChars bot_name) (lowerChars sender_name))

/-- The `for page_idd, page_info in self.page_configs.items()` loop with
its `break`: first entry whose key equals `str(page_id)`. -/
def findPage (configs : PageConfigs) (pid : String) : Option PageInfo :=
  (configs.find? (fun pc => pc.1 == pid)).map (fun pc => pc.2)

/-- The tag-resolution loop: repeated reassignment means the last tag
whose lowercased name equals `lname` wins. -/
def resolveTagId (page_tags : List PageTag) (lname : List Char) : Option String :=
  page_tags.foldl
    (fun acc t => if lowerChars t.tag_name == lname then some t.tag_id else acc) none

/-- The dedup guard
`last_data and last_data[0] == message_content and current_time - last_data[1] < 3.0`. -/
def dedupHit (m : DedupMap) (k : Option String) (content : String) (now : ℚ) : Bool :=
  match dedupGet m k with
  | some lastd => lastd.1 == content && decide (now - lastd.2 < 3)
  | none => false

/-- Arguments of a `_schedule_message_with_debounce` call. -/
structure SchedRequest where
  conversation_id : Option String
  page_id : Option Int
  customer_id : String
  customer_name : String
  message_content : String
  last_message : String
deriving Repr, DecidableEq

/-- One `pancake_service.add_tags(page_id, conversation_id, tag_id)` call. -/
structure AddTagCall where
  page_id : Option Int
  conversation_id : Option String
  tag_id : String
deriving Repr, DecidableEq

/-- One `smax_notify_service.notify_sale_customer_support(...)` call. -/
structure NotifyCall where
  customer_name : String
  customer_phone : String
  page_name : Option String
  conversation_id : Option String
  page_id : Option Int
  intent : String
deriving Repr, DecidableEq

/-- Where routing stopped for one event. -/
inductive RouteOutcome where
  | errored
  | suppressed
  | droppedType
  | droppedEcho
  | handoff
  | escalated
  | persistFailed
  | scheduled
deriving Repr, DecidableEq

/-- Everything observable about one `handle_conversation_update` call: the
terminating step, the dedup map afterwards, and the outbound calls made. -/
structure RouteResult where
  outcome : RouteOutcome
  dedup : DedupMap
  addTagCalls : List AddTagCall
  notifyCalls : List NotifyCall
  scheduled : Option SchedRequest
deriving Repr, DecidableEq

/-- The page config matched by the event (`if page_idd == str(page_id)`). -/
def pageInfoOf (configs : PageConfigs) (cd : ConversationData) : Option PageInfo :=
  findPage configs (strOfOptInt cd.page_id)

/-- `page_tags` after the matching loop (empty when no page matched). -/
def pageTagsOf (configs : PageConfigs) (cd : ConversationData) : List PageTag :=
  ((pageInfoOf configs cd).map (fun p => p.tags)).getD []

/-- `ai_sale_tag_id` after the resolution loop. -/
def aiSaleTagIdOf (configs : PageConfigs) (cd : ConversationData) : Option String :=
  resolveTagId (pageTagsOf configs cd) "ai sale".data

/-- `support_tag_id` after the resolution loop. -/
def supportTagIdOf (configs : PageConfigs) (cd : ConversationData) : Option String :=
  resolveTagId (pageTagsOf configs cd) "nv hỗ trợ".data

/-- The event's tag-id list converted to strings
(`tags = [str(tag) for tag in tags_int]`). -/
def tagsStrOf (cd : ConversationData) : List String :=
  cd.tags.map (fun t => toString t)

/-- The hand-off guard `support_tag_id and support_tag_id in tags`. -/
def supportHandoffHit (configs : PageConfigs) (cd : ConversationData) : Bool :=
  match supportTagIdOf configs cd with
  | some tid => tid != "" && (tagsStrOf cd).contains tid
  | none => false

/-- The escalation guard
`"[Photo]" in message_content or "[Video]" in message_content`. -/
def hasMediaMarker (message_content : String) : Bool :=
  strContains message_content "[Photo]" || strContains message_content "[Video]"

/-- The `if ai_sale_tag_id:` add-tag call (truthiness: no call when the
resolved id is `None` or the empty string). -/
def aiTagCalls (configs : PageConfigs) (cd : ConversationData) : List AddTagCall :=
  match aiSaleTagIdOf configs cd with
  | some tid => if tid != "" then [⟨cd.page_id, cd.id, tid⟩] else []
  | none => []

/-- The `if support_tag_id:` add-tag call inside the escalation branch. -/
def supportTagCalls (configs : PageConfigs) (cd : ConversationData) : List AddTagCall :=
  match supportTagIdOf configs cd with
  | some tid => if tid != "" then [⟨cd.page_id, cd.id, tid⟩] else []
  | none => []

/-- The tail of `handle_conversation_update` after the self-echo filter:
tag resolution, the AI-sale add-tag call, the hand-off check, the
photo/video escalation, persistence, and scheduling.  `persistOk` is
whether `create_or_get_conversation` returned a record. -/
def route_after_echo (configs : PageConfigs) (persistOk : Bool)
    (cd : ConversationData) (dedup2 : DedupMap)
    (customer_id customer_name : String) : RouteResult :=
  let message_content := cd.snippet.getD ""
  if supportHandoffHit configs cd then
    ⟨.handoff, dedup2, aiTagCalls configs cd, [], none⟩
  else if hasMediaMarker message_content then
    ⟨.escalated, dedup2, aiTagCalls configs cd ++ supportTagCalls configs cd,
      [⟨customer_name, "", (pageInfoOf configs cd).map (fun p => p.page_name),
        cd.id, cd.page_id, "Khách hàng gửi ảnh hoặc video"⟩],
      none⟩
  else if persistOk = false then
    ⟨.persistFailed, dedup2, aiTagCalls configs cd, [], none⟩
  else
    let last_message := message_content ++ " - " ++ cd.updated_at.getD ""
    ⟨.scheduled, dedup2, aiTagCalls configs cd, [],
      some ⟨cd.id, cd.page_id, customer_id, customer_name, message_content, last_message⟩⟩

/-- Embedding of `ReceiverService.handle_conversation_update`: field
extraction (the empty-`customers` `IndexError` aborts via the outer
`except`), the 3-second dedup check, the dedup-map overwrite, the
inbox-type filter (`type` defaults to `"INBOX"`), the self-echo filter,
then `route_after_echo`. -/
def handle_conversation_update (configs : PageConfigs) (dedup : DedupMap)
    (now : ℚ) (persistOk : Bool) (cd : ConversationData) : RouteResult :=
  let sender_name := cd.last_sent_by_name.getD "No name"
  match extract_customer cd.customers with
  | none => ⟨.errored, dedup, [], [], none⟩
  | some cust =>
    let type_inbox := cd.type.getD "INBOX"
    let message_content := cd.snippet.getD ""
    if dedupHit dedup cd.id message_content now then
      ⟨.suppressed, dedup, [], [], none⟩
    else
      let dedup2 := dedupSet dedup cd.id message_content now
      if type_inbox != "INBOX" then ⟨.droppedType, dedup2, [], [], none⟩
      else if isEchoSender configs sender_name then ⟨.droppedEcho, dedup2, [], [], none⟩
      else route_after_echo configs persistOk cd dedup2 cust.1 cust.2

/-! ## Debounce scheduler: `_schedule_message_with_debounce` -/

/-- A `_schedule_message_with_debounce` invocation at a point in time, for
one key (the conversation id, possibly `None`) with its captured payload. -/
structure SchedEvent where
  time : ℚ
  key : Option String
  payload : String
deriving Repr, DecidableEq

/-- The fixed debounce delay (`await asyncio.sleep(5.0)`). -/
def debounce_delay : ℚ := 5

/-- Scheduler state under the cooperative `asyncio` semantics:
`nextId` numbers tasks in creation order; `alive` holds the not-yet-done
delayed tasks as `(task id, key, captured payload, deadline)`;
`cancelPending` holds the keys of cancelled tasks whose `finally` block
has not run yet; `pmap` is the `self.pending_tasks` dict (key → task id);
`dispatched` records completed downstream dispatches in order. -/
structure RealSchedState where
  nextId : Nat
  alive : List (Nat × Option String × String × ℚ)
  cancelPending : List (Option String)
  pmap : List (Option String × Nat)
  dispatched : List (Option String × String)
deriving Repr, DecidableEq

/-- The scheduler's initial state (`self.pending_tasks = {}`). -/
def initSched : RealSchedState := ⟨0, [], [], [], []⟩

/-- `del self.pending_tasks[k]` guarded by `if k in self.pending_tasks`. -/
def pmapDel (m : List (Option String × Nat)) (k : Option String) :
    List (Option String × Nat) :=
  m.filter (fun e => e.1 != k)

/-- Dict lookup `self.pending_tasks[k]`. -/
def pmapGet (m : List (Option String × Nat)) (k : Option String) : Option Nat :=
  (m.find? (fun e => e.1 == k)).map (fun e => e.2)

/-- Dict assignment `self.pending_tasks[k] = task`. -/
def pmapSet (m : List (Option String × Nat)) (k : Option String) (v : Nat) :
    List (Option String × Nat) :=
  (k, v) :: pmapDel m k

/-- Deliver the `finally` blocks of previously cancelled tasks.  Each runs
`if conversation_id in self.pending_tasks: del self.pending_tasks[...]` —
a deletion BY KEY, not by task identity, so it removes whatever entry
currently sits under the key (possibly the entry of the replacement
task). -/
def deliverCancels (s : RealSchedState) : RealSchedState :=
  { s with cancelPending := [],
           pmap := s.cancelPending.foldl (fun m k => pmapDel m k) s.pmap }

/-- Fire every alive task whose 5-second sleep has elapsed by time `t`
(deadlines are nondecreasing in creation order for time-ordered schedule
calls): each dispatches its captured payload, then its `finally` deletes
the key's current map entry.  `fuel` bounds the recursion by the number of
alive tasks. -/
def fireDueReal (t : ℚ) : Nat → RealSchedState → RealSchedState
  | 0, s => s
  | fuel + 1, s =>
    match s.alive.find? (fun e => decide (e.2.2.2 ≤ t)) with
    | none => s
    | some task =>
      fireDueReal t fuel
        { s with alive := s.alive.filter (fun e => e.1 != task.1),
                 dispatched := s.dispatched ++ [(task.2.1, task.2.2.1)],
                 pmap := pmapDel s.pmap task.2.1 }

/-- One event-loop turn at time `t`: ready callbacks run before the next
inbound update is handled — queued cancellation `finally` blocks first,
then every due dispatch. -/
def loopTurn (s : RealSchedState) (t : ℚ) : RealSchedState :=
  let s2 := deliverCancels s
  fireDueReal t s2.alive.length s2

/-- Embedding of `_schedule_message_with_debounce` called at time `t`,
after the loop has turned: if `pending_tasks` maps the key to a
not-yet-done task, cancel it (it never dispatches; its `finally` is
queued), then create the fresh delayed task with the captured payload and
a deadline 5 seconds out and overwrite the dict entry with it. -/
def scheduleReal (s : RealSchedState) (t : ℚ) (k : Option String) (p : String) :
    RealSchedState :=
  let s1 := loopTurn s t
  let s2 :=
    match pmapGet s1.pmap k with
    | some tid =>
      if s1.alive.any (fun e => e.1 == tid) then
        { s1 with alive := s1.alive.filter (fun e => e.1 != tid),
                  cancelPending := s1.cancelPending ++ [k] }
      else s1
    | none => s1
  { s2 with pmap := pmapSet s2.pmap k s2.nextId,
            alive := s2.alive ++ [(s2.nextId, k, p, t + debounce_delay)],
            nextId := s2.nextId + 1 }

/-- Run a time-ordered sequence of schedule calls. -/
def runSchedReal (evs : List SchedEvent) (s : RealSchedState) : RealSchedState :=
  evs.foldl (fun st e => scheduleReal st e.time e.key e.payload) s

/-- Let time run past every deadline with no further updates: each
remaining alive task fires, in deadline order. -/
def drainReal (s : RealSchedState) : List (Option String × String) :=
  s.dispatched ++ s.alive.map (fun e => (e.2.1, e.2.2.1))

/-! ## Helper lemmas about the router -/

theorem handle_suppressed_eq (configs : PageConfigs) (dedup : DedupMap) (now : ℚ)
    (persistOk : Bool) (cd : ConversationData) (cust : String × String)
    (hc : extract_customer cd.customers = some cust)
    (hhit : dedupHit dedup cd.id (cd.snippet.getD "") now = true) :
    handle_conversation_update configs dedup now persistOk cd
      = ⟨.suppressed, dedup, [], [], none⟩ := by
  unfold handle_conversation_update
  rw [hc]
  simp [hhit]

theorem handle_miss_eq (configs : PageConfigs) (dedup : DedupMap) (now : ℚ)
    (persistOk : Bool) (cd : ConversationData) (cust : String × String)
    (hc : extract_customer cd.customers = some cust)
    (hmiss : dedupHit dedup cd.id (cd.snippet.getD "") now = false) :
    handle_conversation_update configs dedup now persistOk cd =
      (if (cd.type.getD "INBOX") != "INBOX" then
        ⟨.droppedType, dedupSet dedup cd.id (cd.snippet.getD "") now, [], [], none⟩
      else if isEchoSender configs (cd.last_sent_by_name.getD "No name") then
        ⟨.droppedEcho, dedupSet dedup cd.id (cd.snippet.getD "") now, [], [], none⟩
      else
        route_after_echo configs persistOk cd
          (dedupSet dedup cd.id (cd.snippet.getD "") now) cust.1 cust.2) := by
  unfold handle_conversation_update
  rw [hc]
  simp [hmiss]

theorem route_after_echo_dedup (configs : PageConfigs) (persistOk : Bool)
    (cd : ConversationData) (dedup2 : DedupMap) (ci cn : String) :
    (route_after_echo configs persistOk cd dedup2 ci cn).dedup = dedup2 := by
  simp only [route_after_echo]
  split_ifs <;> rfl

theorem route_after_echo_outcome (configs : PageConfigs) (persistOk : Bool)
    (cd : ConversationData) (dedup2 : DedupMap) (ci cn : String) :
    (route_after_echo configs persistOk cd dedup2 ci cn).outcome = .handoff ∨
    (route_after_echo configs persistOk cd dedup2 ci cn).outcome = .escalated ∨
    (route_after_echo configs persistOk cd dedup2 ci cn).outcome = .persistFailed ∨
    (route_after_echo configs persistOk cd dedup2 ci cn).outcome = .scheduled := by
  simp only [route_after_echo]
  split_ifs <;> simp

theorem route_after_echo_not_early (configs : PageConfigs) (persistOk : Bool)
    (cd : ConversationData) (dedup2 : DedupMap) (ci cn : String) :
    (route_after_echo configs persistOk cd dedup2 ci cn).outcome ≠ .errored ∧
    (route_after_echo configs persistOk cd dedup2 ci cn).outcome ≠ .suppressed ∧
    (route_after_echo configs persistOk cd dedup2 ci cn).outcome ≠ .droppedType ∧
    (route_after_echo configs persistOk cd dedup2 ci cn).outcome ≠ .droppedEcho := by
  rcases route_after_echo_outcome configs persistOk cd dedup2 ci cn with h | h | h | h <;>
    simp [h]

theorem handle_errored_eq (configs : PageConfigs) (dedup : DedupMap) (now : ℚ)
    (persistOk : Bool) (cd : ConversationData)
    (hc : extract_customer cd.customers = none) :
    handle_conversation_update configs dedup now persistOk cd
      = ⟨.errored, dedup, [], [], none⟩ := by
  unfold handle_conversation_update
  rw [hc]

theorem dedupGet_map_update (k : Option String) (content : String) (t : ℚ) :
    ∀ m : DedupMap, dedupHas m k = true →
      dedupGet (m.map (fun e => if e.1 == k then (k, content, t) else e)) k
        = some (content, t) := by
  intro m
  induction m with
  | nil => intro h; simp [dedupHas] at h
  | cons e m ih =>
    intro h
    rw [List.map_cons]
    by_cases hek : (e.1 == k) = true
    · simp [dedupGet, hek]
    · have hek' : (e.1 == k) = false := by simpa using hek
      have htail : dedupHas m k = true := by
        simpa [dedupHas, hek'] using h
      simp only [hek', Bool.false_eq_true, if_false, dedupGet]
      exact ih htail

theorem dedupGet_dedupSet (m : DedupMap) (k : Option String) (content : String) (t : ℚ) :
    dedupGet (dedupSet m k content t) k = some (content, t) := by
  unfold dedupSet
  split
  · rename_i h
    exact dedupGet_map_update k content t m h
  · simp [dedupGet]

theorem startsWithChars_self : ∀ l : List Char, startsWithChars l l = true := by
  intro l
  induction l with
  | nil => rfl
  | cons a l ih => simp [startsWithChars, ih]

theorem containsChars_self : ∀ l : List Char, containsChars l l = true := by
  intro l
  cases l with
  | nil => rfl
  | cons a l => simp [containsChars, startsWithChars_self]

theorem toDigitsCore_length_le (b : Nat) :
    ∀ (fuel n : Nat) (ds : List Char),
      ds.length ≤ (Nat.toDigitsCore b fuel n ds).length := by
  intro fuel
  induction fuel with
  | zero => intro n ds; simp [Nat.toDigitsCore]
  | succ fuel ih =>
    intro n ds
    unfold Nat.toDigitsCore
    dsimp only
    split
    · simp
    · exact le_trans (by simp) (ih _ _)

theorem toDigits_length_pos (b n : Nat) : 0 < (Nat.toDigits b n).length := by
  unfold Nat.toDigits Nat.toDigitsCore
  dsimp only
  split
  · simp
  · calc (0 : Nat) < 1 := Nat.one_pos
      _ ≤ _ := by
        simpa using toDigitsCore_length_le b n (n / b) [Nat.digitChar (n % b)]

theorem Nat_repr_ne_empty (n : Nat) : Nat.repr n ≠ "" := by
  unfold Nat.repr
  intro h
  have hlen : (Nat.toDigits 10 n).length = 0 := by
    have hdata := congrArg String.data h
    simpa [List.asString] using congrArg List.length hdata
  exact absurd hlen (toDigits_length_pos 10 n).ne'

theorem toString_int_ne_empty (n : Int) : toString n ≠ "" := by
  cases n with
  | ofNat m => exact Nat_repr_ne_empty m
  | negSucc m =>
    intro h
    have hdata : ('-' :: (Nat.repr (m + 1)).data) = ([] : List Char) :=
      congrArg String.data h
    cases hdata

/-! ## Claim theorems -/

/-- C10: a conversation-update payload that omits the inbox-type
discriminator is treated as the `"INBOX"` kind — it is never dropped by the
type filter — and the type filter drops an event only when an explicitly
present type differs from `"INBOX"`. -/
theorem C10_type_default_inbox (configs : PageConfigs) (dedup : DedupMap) (now : ℚ)
    (persistOk : Bool) (cd cd' : ConversationData)
    (htype : cd.type = none) :
    (handle_conversation_update configs dedup now persistOk cd).outcome
        ≠ RouteOutcome.droppedType ∧
    ((handle_conversation_update configs dedup now persistOk cd').outcome
        = RouteOutcome.droppedType → ∃ s, cd'.type = some s ∧ s ≠ "INBOX") := by
  have key : ∀ cd2 : ConversationData,
      (handle_conversation_update configs dedup now persistOk cd2).outcome
          = RouteOutcome.droppedType → ∃ s, cd2.type = some s ∧ s ≠ "INBOX" := by
    intro cd2 hdrop
    unfold handle_conversation_update at hdrop
    split at hdrop
    · simp at hdrop
    · dsimp only at hdrop
      split at hdrop
      · simp at hdrop
      · split at hdrop
        · rename_i htype2
          rcases ht : cd2.type with _ | s
          · rw [ht] at htype2; simp at htype2
          · refine ⟨s, rfl, ?_⟩
            rw [ht] at htype2
            simpa using htype2
        · split at hdrop
          · simp at hdrop
          · exact absurd hdrop (route_after_echo_not_early _ _ _ _ _ _).2.2.1
  refine ⟨fun hdrop => ?_, key cd'⟩
  rcases key cd hdrop with ⟨s, hs, _⟩
  rw [htype] at hs
  cases hs

/-- Witness for C10 at a concrete type-less payload. -/
theorem C10_type_default_inbox_witness :
    (handle_conversation_update [] [] 0 true
        ⟨some "c1", some 1, some "Alice", none, none, none, [], some "hi"⟩).outcome
        ≠ RouteOutcome.droppedType ∧
    ((handle_conversation_update [] [] 0 true
        ⟨some "c1", some 1, some "Alice", none, none, none, [], some "hi"⟩).outcome
        = RouteOutcome.droppedType →
      ∃ s, (⟨some "c1", some 1, some "Alice", none, none, none, [], some "hi"⟩ :
          ConversationData).type = some s ∧ s ≠ "INBOX") :=
  C10_type_default_inbox [] [] 0 true
    ⟨some "c1", some 1, some "Alice", none, none, none, [], some "hi"⟩
    ⟨some "c1", some 1, some "Alice", none, none, none, [], some "hi"⟩ rfl

/-- C3 counterexample: a managed resource whose display name is the empty
string.  The sender name (also empty) case-insensitively equals that
resource's display name, yet the event is not dropped: routing proceeds all
the way to scheduling, because the code's generator filters out falsy
(empty) page names before the substring test. -/
theorem C3_self_echo_counterexample :
    (∃ pc ∈ ([("1", ⟨"tok", "", []⟩)] : PageConfigs),
        lowerChars pc.2.page_name
          = lowerChars ((⟨some "c1", some 1, some "", none, none, none, [], some "hi"⟩ :
              ConversationData).last_sent_by_name.getD "No name")) ∧
    (handle_conversation_update [("1", ⟨"tok", "", []⟩)] [] 0 true
        ⟨some "c1", some 1, some "", none, none, none, [], some "hi"⟩).scheduled ≠ none := by
  decide

/-- C3 (amended): for every conversation-update event that passes the dedup
and type steps and whose sender display name case-insensitively matches the
NONEMPTY display name of some managed resource in the current configuration
snapshot, routing drops the event at the self-echo step: no tagging call,
no persistence, nothing scheduled. -/
theorem C3_self_echo_amended (configs : PageConfigs) (dedup : DedupMap) (now : ℚ)
    (persistOk : Bool) (cd : ConversationData) (cust : String × String)
    (pc : String × PageInfo)
    (hc : extract_customer cd.customers = some cust)
    (hmiss : dedupHit dedup cd.id (cd.snippet.getD "") now = false)
    (htype : cd.type.getD "INBOX" = "INBOX")
    (hpc : pc ∈ configs)
    (hnonempty : pc.2.page_name ≠ "")
    (hmatch : lowerChars pc.2.page_name = lowerChars (cd.last_sent_by_name.getD "No name")) :
    handle_conversation_update configs dedup now persistOk cd
      = ⟨.droppedEcho, dedupSet dedup cd.id (cd.snippet.getD "") now, [], [], none⟩ := by
  rw [handle_miss_eq configs dedup now persistOk cd cust hc hmiss, htype]
  have hecho : isEchoSender configs (cd.last_sent_by_name.getD "No name") = true := by
    unfold isEchoSender
    rw [List.any_eq_true]
    refine ⟨pc.2.page_name, List.mem_map.mpr ⟨pc, hpc, rfl⟩, ?_⟩
    rw [Bool.and_eq_true]
    exact ⟨bne_iff_ne.mpr hnonempty, by rw [hmatch]; exact containsChars_self _⟩
  simp [hecho]

/-- Witness for the amended C3: a sender name equal (up to case) to a
configured nonempty page name is dropped at the self-echo step. -/
theorem C3_self_echo_amended_witness :
    handle_conversation_update [("1", ⟨"tok", "SHOP ĐẸP", []⟩)] [] 0 true
        ⟨some "c1", some 1, some "shop đẹp", none, none, none, [], some "hi"⟩
      = ⟨.droppedEcho, dedupSet [] (some "c1") "hi" 0, [], [], none⟩ :=
  C3_self_echo_amended [("1", ⟨"tok", "SHOP ĐẸP", []⟩)] [] 0 true
    ⟨some "c1", some 1, some "shop đẹp", none, none, none, [], some "hi"⟩
    ("", "No name") ("1", ⟨"tok", "SHOP ĐẸP", []⟩)
    rfl rfl rfl (by decide) (by decide) (by decide)

/-- C4: for every conversation-update event that reaches the hand-off step
with a resolved "human support" tag id present in the event's tag-id list,
routing stops at the hand-off step: no escalation notification, no
persistence-dependent branch, and no debounce scheduling (only the AI-sale
add-tag call from the tag-resolution step may have been issued). -/
theorem C4_handoff_stops_routing (configs : PageConfigs) (dedup : DedupMap) (now : ℚ)
    (persistOk : Bool) (cd : ConversationData) (cust : String × String) (tid : String)
    (hc : extract_customer cd.customers = some cust)
    (hmiss : dedupHit dedup cd.id (cd.snippet.getD "") now = false)
    (htype : cd.type.getD "INBOX" = "INBOX")
    (hecho : isEchoSender configs (cd.last_sent_by_name.getD "No name") = false)
    (hres : supportTagIdOf configs cd = some tid)
    (hmem : tid ∈ tagsStrOf cd) :
    handle_conversation_update configs dedup now persistOk cd
      = ⟨.handoff, dedupSet dedup cd.id (cd.snippet.getD "") now,
          aiTagCalls configs cd, [], none⟩ := by
  rw [handle_miss_eq configs dedup now persistOk cd cust hc hmiss, htype]
  have hhit : supportHandoffHit configs cd = true := by
    unfold supportHandoffHit
    rw [hres, Bool.and_eq_true]
    constructor
    · rcases List.mem_map.mp hmem with ⟨n, _, hn⟩
      exact bne_iff_ne.mpr (hn ▸ toString_int_ne_empty n)
    · simpa [List.contains] using List.elem_eq_true_of_mem hmem
  simp [hecho, route_after_echo, hhit]

/-- Witness for C4: a conversation already carrying the support tag id is
stopped at the hand-off step. -/
theorem C4_handoff_stops_routing_witness :
    handle_conversation_update
        [("1", ⟨"tok", "SHOP ĐẸP", [⟨"AI SALE", "11"⟩, ⟨"NV HỖ TRỢ", "22"⟩]⟩)] [] 0 true
        ⟨some "c1", some 1, some "Alice", none, none, none, [22], some "hi"⟩
      = ⟨.handoff, dedupSet [] (some "c1") "hi" 0,
          aiTagCalls [("1", ⟨"tok", "SHOP ĐẸP", [⟨"AI SALE", "11"⟩, ⟨"NV HỖ TRỢ", "22"⟩]⟩)]
            ⟨some "c1", some 1, some "Alice", none, none, none, [22], some "hi"⟩,
          [], none⟩ :=
  C4_handoff_stops_routing
    [("1", ⟨"tok", "SHOP ĐẸP", [⟨"AI SALE", "11"⟩, ⟨"NV HỖ TRỢ", "22"⟩]⟩)] [] 0 true
    ⟨some "c1", some 1, some "Alice", none, none, none, [22], some "hi"⟩
    ("", "No name") "22"
    rfl rfl rfl (by decide) (by decide) (by decide)

/-- C5 counterexample: with both the "AI Sale" and "NV Hỗ Trợ" tags
configured, a photo event that escalates issues TWO add-tag calls — the
AI-sale call from the tag-resolution step plus the support call from the
escalation branch — not exactly one. -/
theorem C5_escalation_counterexample :
    (handle_conversation_update
        [("1", ⟨"tok", "Shop ABC", [⟨"AI Sale", "11"⟩, ⟨"NV Hỗ Trợ", "22"⟩]⟩)] [] 0 true
        ⟨some "c1", some 1, some "Alice", none, none, none, [], some "[Photo] hi"⟩).outcome
        = RouteOutcome.escalated ∧
    ¬ (handle_conversation_update
        [("1", ⟨"tok", "Shop ABC", [⟨"AI Sale", "11"⟩, ⟨"NV Hỗ Trợ", "22"⟩]⟩)] [] 0 true
        ⟨some "c1", some 1, some "Alice", none, none, none, [], some "[Photo] hi"⟩).addTagCalls.length
        = 1 := by
  decide

/-- C5 (amended): for every conversation-update event that passes the
dedup, type, self-echo and hand-off steps and whose snippet contains a
photo or video marker: the escalation branch issues exactly one add-tag
call with the "human support" tag id (only if that id is resolved and
nonempty), in addition to the AI-handling add-tag call issued at the
tag-resolution step when that id is resolved; exactly one
notification-collaborator call is made with the escalation intent; and no
pending dispatch is created. -/
theorem C5_escalation_amended (configs : PageConfigs) (dedup : DedupMap) (now : ℚ)
    (persistOk : Bool) (cd : ConversationData) (cust : String × String)
    (hc : extract_customer cd.customers = some cust)
    (hmiss : dedupHit dedup cd.id (cd.snippet.getD "") now = false)
    (htype : cd.type.getD "INBOX" = "INBOX")
    (hecho : isEchoSender configs (cd.last_sent_by_name.getD "No name") = false)
    (hnohandoff : supportHandoffHit configs cd = false)
    (hmarker : hasMediaMarker (cd.snippet.getD "") = true) :
    handle_conversation_update configs dedup now persistOk cd
      = ⟨.escalated, dedupSet dedup cd.id (cd.snippet.getD "") now,
          aiTagCalls configs cd ++ supportTagCalls configs cd,
          [⟨cust.2, "", (pageInfoOf configs cd).map (fun p => p.page_name),
            cd.id, cd.page_id, "Khách hàng gửi ảnh hoặc video"⟩], none⟩ ∧
    (∀ tid, supportTagIdOf configs cd = some tid → tid ≠ "" →
      supportTagCalls configs cd = [⟨cd.page_id, cd.id, tid⟩]) ∧
    (supportTagIdOf configs cd = none → supportTagCalls configs cd = []) := by
  refine ⟨?_, ?_, ?_⟩
  · rw [handle_miss_eq configs dedup now persistOk cd cust hc hmiss, htype]
    simp [hecho, route_after_echo, hnohandoff, hmarker]
  · intro tid hres hne
    unfold supportTagCalls
    rw [hres]
    simp [bne_iff_ne.mpr hne]
  · intro hres
    unfold supportTagCalls
    rw [hres]

/-- Witness for the amended C5: the escalated photo event above makes the
AI-sale call, one support call, one notification, and no dispatch. -/
theorem C5_escalation_amended_witness :
    handle_conversation_update
        [("1", ⟨"tok", "SHOP ĐẸP", [⟨"AI SALE", "11"⟩, ⟨"NV HỖ TRỢ", "22"⟩]⟩)] [] 0 true
        ⟨some "c1", some 1, some "Alice", none, none, none, [], some "[Photo] hi"⟩
      = ⟨.escalated, dedupSet [] (some "c1") "[Photo] hi" 0,
          aiTagCalls [("1", ⟨"tok", "SHOP ĐẸP", [⟨"AI SALE", "11"⟩, ⟨"NV HỖ TRỢ", "22"⟩]⟩)]
              ⟨some "c1", some 1, some "Alice", none, none, none, [], some "[Photo] hi"⟩
            ++ supportTagCalls
              [("1", ⟨"tok", "SHOP ĐẸP", [⟨"AI SALE", "11"⟩, ⟨"NV HỖ TRỢ", "22"⟩]⟩)]
              ⟨some "c1", some 1, some "Alice", none, none, none, [], some "[Photo] hi"⟩,
          [⟨"No name", "",
            (pageInfoOf [("1", ⟨"tok", "SHOP ĐẸP", [⟨"AI SALE", "11"⟩, ⟨"NV HỖ TRỢ", "22"⟩]⟩)]
                ⟨some "c1", some 1, some "Alice", none, none, none, [], some "[Photo] hi"⟩).map
              (fun p => p.page_name),
            some "c1", some 1, "Khách hàng gửi ảnh hoặc video"⟩], none⟩ ∧
    (∀ tid,
      supportTagIdOf [("1", ⟨"tok", "SHOP ĐẸP", [⟨"AI SALE", "11"⟩, ⟨"NV HỖ TRỢ", "22"⟩]⟩)]
          ⟨some "c1", some 1, some "Alice", none, none, none, [], some "[Photo] hi"⟩ = some tid →
      tid ≠ "" →
      supportTagCalls [("1", ⟨"tok", "SHOP ĐẸP", [⟨"AI SALE", "11"⟩, ⟨"NV HỖ TRỢ", "22"⟩]⟩)]
          ⟨some "c1", some 1, some "Alice", none, none, none, [], some "[Photo] hi"⟩
        = [⟨some 1, some "c1", tid⟩]) ∧
    (supportTagIdOf [("1", ⟨"tok", "SHOP ĐẸP", [⟨"AI SALE", "11"⟩, ⟨"NV HỖ TRỢ", "22"⟩]⟩)]
          ⟨some "c1", some 1, some "Alice", none, none, none, [], some "[Photo] hi"⟩ = none →
      supportTagCalls [("1", ⟨"tok", "SHOP ĐẸP", [⟨"AI SALE", "11"⟩, ⟨"NV HỖ TRỢ", "22"⟩]⟩)]
          ⟨some "c1", some 1, some "Alice", none, none, none, [], some "[Photo] hi"⟩ = []) :=
  C5_escalation_amended
    [("1", ⟨"tok", "SHOP ĐẸP", [⟨"AI SALE", "11"⟩, ⟨"NV HỖ TRỢ", "22"⟩]⟩)] [] 0 true
    ⟨some "c1", some 1, some "Alice", none, none, none, [], some "[Photo] hi"⟩
    ("", "No name") rfl rfl rfl (by decide) (by decide) (by decide)

/-- C2: for two updates with the same conversation id and identical snippet
content, if the second arrives under 3 seconds after the dedup entry was
written it is suppressed with no further effect; otherwise the entry is
overwritten with the new content and time and routing continues; two
identical updates at least 3 seconds apart are both processed. -/
theorem C2_dedup_window (configs : PageConfigs) (d0 : DedupMap) (t1 t2 : ℚ)
    (p1 p2 : Bool) (cd1 cd2 : ConversationData) (cust1 cust2 : String × String)
    (hc1 : extract_customer cd1.customers = some cust1)
    (hc2 : extract_customer cd2.customers = some cust2)
    (hid : cd2.id = cd1.id) (hsnip : cd2.snippet = cd1.snippet)
    (hfresh : dedupHit d0 cd1.id (cd1.snippet.getD "") t1 = false) :
    (handle_conversation_update configs d0 t1 p1 cd1).outcome ≠ .suppressed ∧
    (t2 - t1 < 3 →
      handle_conversation_update configs
          (handle_conversation_update configs d0 t1 p1 cd1).dedup t2 p2 cd2
        = ⟨.suppressed, (handle_conversation_update configs d0 t1 p1 cd1).dedup,
            [], [], none⟩) ∧
    (3 ≤ t2 - t1 →
      (handle_conversation_update configs
          (handle_conversation_update configs d0 t1 p1 cd1).dedup t2 p2 cd2).outcome
          ≠ .suppressed ∧
      dedupGet (handle_conversation_update configs
          (handle_conversation_update configs d0 t1 p1 cd1).dedup t2 p2 cd2).dedup cd2.id
        = some (cd2.snippet.getD "", t2)) := by
  have hdedup1 : (handle_conversation_update configs d0 t1 p1 cd1).dedup
      = dedupSet d0 cd1.id (cd1.snippet.getD "") t1 := by
    rw [handle_miss_eq configs d0 t1 p1 cd1 cust1 hc1 hfresh]
    split_ifs <;> first | rfl | exact route_after_echo_dedup _ _ _ _ _ _
  have hget1 : dedupGet (handle_conversation_update configs d0 t1 p1 cd1).dedup cd1.id
      = some (cd1.snippet.getD "", t1) := by
    rw [hdedup1]
    exact dedupGet_dedupSet _ _ _ _
  refine ⟨?_, ?_, ?_⟩
  · rw [handle_miss_eq configs d0 t1 p1 cd1 cust1 hc1 hfresh]
    split_ifs <;>
      first
        | exact (route_after_echo_not_early _ _ _ _ _ _).2.1
        | simp
  · intro hlt
    apply handle_suppressed_eq configs _ t2 p2 cd2 cust2 hc2
    unfold dedupHit
    rw [hid, hget1, hsnip]
    simp [decide_eq_true hlt]
  · intro hge
    have hmiss2 : dedupHit (handle_conversation_update configs d0 t1 p1 cd1).dedup
        cd2.id (cd2.snippet.getD "") t2 = false := by
      unfold dedupHit
      rw [hid, hget1, hsnip]
      simp [decide_eq_false (not_lt.mpr hge)]
    constructor
    · rw [handle_miss_eq configs _ t2 p2 cd2 cust2 hc2 hmiss2]
      split_ifs <;>
        first
          | exact (route_after_echo_not_early _ _ _ _ _ _).2.1
          | simp
    · have hd2 : (handle_conversation_update configs
          (handle_conversation_update configs d0 t1 p1 cd1).dedup t2 p2 cd2).dedup
          = dedupSet (handle_conversation_update configs d0 t1 p1 cd1).dedup
              cd2.id (cd2.snippet.getD "") t2 := by
        rw [handle_miss_eq configs _ t2 p2 cd2 cust2 hc2 hmiss2]
        split_ifs <;> first | rfl | exact route_after_echo_dedup _ _ _ _ _ _
      rw [hd2]
      exact dedupGet_dedupSet _ _ _ _

/-- Witness for C2 at two concrete identical updates for one id. -/
theorem C2_dedup_window_witness :
    (handle_conversation_update [] [] 0 true
        ⟨some "c1", some 1, some "Alice", none, none, none, [], some "hello"⟩).outcome
        ≠ .suppressed ∧
    ((1 : ℚ) - 0 < 3 →
      handle_conversation_update []
          (handle_conversation_update [] [] 0 true
            ⟨some "c1", some 1, some "Alice", none, none, none, [], some "hello"⟩).dedup 1 true
          ⟨some "c1", some 1, some "Alice", none, none, none, [], some "hello"⟩
        = ⟨.suppressed,
            (handle_conversation_update [] [] 0 true
              ⟨some "c1", some 1, some "Alice", none, none, none, [], some "hello"⟩).dedup,
            [], [], none⟩) ∧
    ((3 : ℚ) ≤ 1 - 0 →
      (handle_conversation_update []
          (handle_conversation_update [] [] 0 true
            ⟨some "c1", some 1, some "Alice", none, none, none, [], some "hello"⟩).dedup 1 true
          ⟨some "c1", some 1, some "Alice", none, none, none, [], some "hello"⟩).outcome
          ≠ .suppressed ∧
      dedupGet (handle_conversation_update []
          (handle_conversation_update [] [] 0 true
            ⟨some "c1", some 1, some "Alice", none, none, none, [], some "hello"⟩).dedup 1 true
          ⟨some "c1", some 1, some "Alice", none, none, none, [], some "hello"⟩).dedup
        (some "c1") = some ("hello", 1)) :=
  C2_dedup_window [] [] 0 1 true true
    ⟨some "c1", some 1, some "Alice", none, none, none, [], some "hello"⟩
    ⟨some "c1", some 1, some "Alice", none, none, none, [], some "hello"⟩
    ("", "No name") ("", "No name") rfl rfl rfl rfl rfl

theorem runSchedReal_cons (e : SchedEvent) (evs : List SchedEvent) (s : RealSchedState) :
    runSchedReal (e :: evs) s = runSchedReal evs (scheduleReal s e.time e.key e.payload) :=
  rfl

theorem handle_scheduled_key (configs : PageConfigs) (dedup : DedupMap) (now : ℚ)
    (persistOk : Bool) (cd : ConversationData) (req : SchedRequest)
    (h : (handle_conversation_update configs dedup now persistOk cd).scheduled = some req) :
    req.conversation_id = cd.id := by
  unfold handle_conversation_update at h
  split at h
  · simp at h
  · dsimp only at h
    split at h
    · simp at h
    · split at h
      · simp at h
      · split at h
        · simp at h
        · simp only [route_after_echo] at h
          split_ifs at h
          simp only [Option.some.injEq] at h
          subst h
          rfl

/-- C1 (code bug): three updates for one conversation id at times 0, 1, 2 —
all within the 5-second window of the first and each before any pending
dispatch fires — produce TWO downstream dispatches (payloads "m2" and
"m3"), not exactly one with the last payload.  The second schedule call
cancels task 1, but task 1's deferred `finally` then deletes the
`pending_tasks` entry of its REPLACEMENT (the deletion checks key
presence, not task identity), so the third schedule call finds no entry
and never cancels task 2. -/
theorem C1_debounce_code_bug :
    drainReal (runSchedReal
        [⟨0, some "c", "m1"⟩, ⟨1, some "c", "m2"⟩, ⟨2, some "c", "m3"⟩] initSched)
      = [(some "c", "m2"), (some "c", "m3")] ∧
    (drainReal (runSchedReal
        [⟨0, some "c", "m1"⟩, ⟨1, some "c", "m2"⟩, ⟨2, some "c", "m3"⟩]
        initSched)).length ≠ 1 := by
  have h1 : ¬ (debounce_delay ≤ (1 : ℚ)) := by norm_num [debounce_delay]
  have h1' : ¬ ((0 : ℚ) + debounce_delay ≤ 1) := by norm_num [debounce_delay]
  have h2 : ¬ ((1 : ℚ) + debounce_delay ≤ 2) := by norm_num [debounce_delay]
  have hrun : runSchedReal
      [⟨0, some "c", "m1"⟩, ⟨1, some "c", "m2"⟩, ⟨2, some "c", "m3"⟩] initSched
      = ⟨3, [(1, some "c", "m2", 1 + debounce_delay),
             (2, some "c", "m3", 2 + debounce_delay)], [], [(some "c", 2)], []⟩ := by
    rw [runSchedReal_cons]
    have e1 : scheduleReal initSched (0 : ℚ) (some "c") "m1"
        = ⟨1, [(0, some "c", "m1", 0 + debounce_delay)], [], [(some "c", 0)], []⟩ := rfl
    rw [show scheduleReal initSched
        (SchedEvent.mk 0 (some "c") "m1").time (SchedEvent.mk 0 (some "c") "m1").key
        (SchedEvent.mk 0 (some "c") "m1").payload
        = scheduleReal initSched (0 : ℚ) (some "c") "m1" from rfl, e1]
    rw [runSchedReal_cons]
    have e2 : scheduleReal
        ⟨1, [(0, some "c", "m1", 0 + debounce_delay)], [], [(some "c", 0)], []⟩
        (1 : ℚ) (some "c") "m2"
        = ⟨2, [(1, some "c", "m2", 1 + debounce_delay)], [some "c"],
            [(some "c", 1)], []⟩ := by
      simp [scheduleReal, loopTurn, deliverCancels, fireDueReal, pmapGet, pmapSet,
            pmapDel, decide_eq_false h1, decide_eq_false h1']
    rw [show scheduleReal
        ⟨1, [(0, some "c", "m1", 0 + debounce_delay)], [], [(some "c", 0)], []⟩
        (SchedEvent.mk 1 (some "c") "m2").time (SchedEvent.mk 1 (some "c") "m2").key
        (SchedEvent.mk 1 (some "c") "m2").payload
        = scheduleReal
            ⟨1, [(0, some "c", "m1", 0 + debounce_delay)], [], [(some "c", 0)], []⟩
            (1 : ℚ) (some "c") "m2" from rfl, e2]
    rw [runSchedReal_cons]
    have e3 : scheduleReal
        ⟨2, [(1, some "c", "m2", 1 + debounce_delay)], [some "c"], [(some "c", 1)], []⟩
        (2 : ℚ) (some "c") "m3"
        = ⟨3, [(1, some "c", "m2", 1 + debounce_delay),
               (2, some "c", "m3", 2 + debounce_delay)], [], [(some "c", 2)], []⟩ := by
      simp [scheduleReal, loopTurn, deliverCancels, fireDueReal, pmapGet, pmapSet,
            pmapDel, decide_eq_false h2]
    rw [show scheduleReal
        ⟨2, [(1, some "c", "m2", 1 + debounce_delay)], [some "c"], [(some "c", 1)], []⟩
        (SchedEvent.mk 2 (some "c") "m3").time (SchedEvent.mk 2 (some "c") "m3").key
        (SchedEvent.mk 2 (some "c") "m3").payload
        = scheduleReal
            ⟨2, [(1, some "c", "m2", 1 + debounce_delay)], [some "c"], [(some "c", 1)], []⟩
            (2 : ℚ) (some "c") "m3" from rfl, e3]
    rfl
  rw [hrun]
  exact ⟨rfl, by simp [drainReal]⟩

/-- C9: payloads lacking a conversation id are not rejected — they are
processed under the shared key `None`: the dedup entry is written at key
`None`, any scheduled dispatch is keyed by `None`, a second id-less
conversation's identical-content update inside the window is suppressed by
the first's entry, and a second id-less schedule cancels the first id-less
pending dispatch. -/
theorem C9_idless_shared_key (configs : PageConfigs) (d0 : DedupMap) (t1 t2 t3 t4 : ℚ)
    (p1 p2 : Bool) (cd1 cd2 : ConversationData) (cust1 cust2 : String × String)
    (q1 q2 : String)
    (hc1 : extract_customer cd1.customers = some cust1)
    (hc2 : extract_customer cd2.customers = some cust2)
    (hid1 : cd1.id = none) (hid2 : cd2.id = none)
    (hsnip : cd2.snippet = cd1.snippet)
    (hfresh : dedupHit d0 none (cd1.snippet.getD "") t1 = false)
    (hlt : t2 - t1 < 3) (_hle : t3 ≤ t4) (hwin : t4 < t3 + debounce_delay) :
    dedupGet (handle_conversation_update configs d0 t1 p1 cd1).dedup none
      = some (cd1.snippet.getD "", t1) ∧
    (∀ req, (handle_conversation_update configs d0 t1 p1 cd1).scheduled = some req →
      req.conversation_id = none) ∧
    handle_conversation_update configs
        (handle_conversation_update configs d0 t1 p1 cd1).dedup t2 p2 cd2
      = ⟨.suppressed, (handle_conversation_update configs d0 t1 p1 cd1).dedup,
          [], [], none⟩ ∧
    drainReal (runSchedReal [⟨t3, none, q1⟩, ⟨t4, none, q2⟩] initSched)
      = [(none, q2)] := by
  have hfresh1 : dedupHit d0 cd1.id (cd1.snippet.getD "") t1 = false := by
    rw [hid1]; exact hfresh
  have hdedup1 : (handle_conversation_update configs d0 t1 p1 cd1).dedup
      = dedupSet d0 cd1.id (cd1.snippet.getD "") t1 := by
    rw [handle_miss_eq configs d0 t1 p1 cd1 cust1 hc1 hfresh1]
    split_ifs <;> first | rfl | exact route_after_echo_dedup _ _ _ _ _ _
  have hget1 : dedupGet (handle_conversation_update configs d0 t1 p1 cd1).dedup none
      = some (cd1.snippet.getD "", t1) := by
    rw [hdedup1, ← hid1]
    exact dedupGet_dedupSet _ _ _ _
  refine ⟨hget1, ?_, ?_, ?_⟩
  · intro req hreq
    rw [handle_scheduled_key configs d0 t1 p1 cd1 req hreq]
    exact hid1
  · apply handle_suppressed_eq configs _ t2 p2 cd2 cust2 hc2
    unfold dedupHit
    rw [hid2, hget1, hsnip]
    simp [decide_eq_true hlt]
  · have hnd : ¬ (t3 + debounce_delay ≤ t4) := not_le.mpr hwin
    rw [runSchedReal_cons]
    dsimp only
    have e1 : scheduleReal initSched t3 none q1
        = ⟨1, [(0, none, q1, t3 + debounce_delay)], [], [(none, 0)], []⟩ := rfl
    rw [e1, runSchedReal_cons]
    dsimp only
    have e2 : scheduleReal
        ⟨1, [(0, none, q1, t3 + debounce_delay)], [], [(none, 0)], []⟩ t4 none q2
        = ⟨2, [(1, none, q2, t4 + debounce_delay)], [none], [(none, 1)], []⟩ := by
      simp [scheduleReal, loopTurn, deliverCancels, fireDueReal, pmapGet, pmapSet,
            pmapDel, decide_eq_false hnd]
    rw [e2]
    rfl

/-- Witness for C9: two id-less conversations with the same snippet one
second apart — the second is suppressed; two id-less schedules share the
`None` slot so only the second payload is dispatched. -/
theorem C9_idless_shared_key_witness :
    dedupGet (handle_conversation_update [] [] 0 true
        ⟨none, some 1, some "A", none, none, none, [], some "x"⟩).dedup none
      = some ("x", 0) ∧
    (∀ req, (handle_conversation_update [] [] 0 true
        ⟨none, some 1, some "A", none, none, none, [], some "x"⟩).scheduled = some req →
      req.conversation_id = none) ∧
    handle_conversation_update []
        (handle_conversation_update [] [] 0 true
          ⟨none, some 1, some "A", none, none, none, [], some "x"⟩).dedup 1 true
        ⟨none, some 2, some "B", none, none, none, [], some "x"⟩
      = ⟨.suppressed,
          (handle_conversation_update [] [] 0 true
            ⟨none, some 1, some "A", none, none, none, [], some "x"⟩).dedup,
          [], [], none⟩ ∧
    drainReal (runSchedReal [⟨0, none, "a"⟩, ⟨1, none, "b"⟩] initSched)
      = [(none, "b")] :=
  C9_idless_shared_key [] [] 0 1 0 1 true true
    ⟨none, some 1, some "A", none, none, none, [], some "x"⟩
    ⟨none, some 2, some "B", none, none, none, [], some "x"⟩
    ("", "No name") ("", "No name") "a" "b"
    rfl rfl rfl rfl rfl rfl
    (by norm_num) (by norm_num) (by norm_num [debounce_delay])

/-- C6: every one of the six page-event kinds triggers the full reload
procedure, and the single reload lock serializes reconfigurations: in any
executable trace of the lock, between two acquisitions there is a release,
so a second teardown-and-rebuild begins only after the first has finished. -/
theorem C6_reload_serialized (e : PageEventType) (l1 l2 rest : List LockAction)
    (a b : Nat)
    (hv : ValidLockTrace
      (l1 ++ (LockAction.acquire a :: (l2 ++ (LockAction.acquire b :: rest))))) :
    handle_page_event e = true ∧ ∃ c, LockAction.release c ∈ l2 := by
  constructor
  · cases e <;> rfl
  · unfold ValidLockTrace at hv
    rw [lockRun_append] at hv
    rcases hs1 : lockRun none l1 with _ | s1
    · rw [hs1] at hv
      simp at hv
    · rw [hs1] at hv
      simp only [Option.some_bind] at hv
      rcases s1 with _ | h1
      · rw [lockRun] at hv
        simp only [lockStep] at hv
        exact release_before_reacquire a l2 b rest hv
      · rw [lockRun] at hv
        simp [lockStep] at hv

/-- Witness for C6: a trace where the second reload acquires only after the
first's release. -/
theorem C6_reload_serialized_witness :
    handle_page_event PageEventType.pages_reloaded = true ∧
    ∃ c, LockAction.release c ∈ [LockAction.release 0] :=
  C6_reload_serialized PageEventType.pages_reloaded [] [LockAction.release 0] [] 0 1
    (by decide)

/-- C7: with no active session, a send fails with a connection error and
transmits nothing; with a session, the transmitted frame is the ordered
5-tuple [ref, ref, channel, event, payload] whose first two elements are
equal, and the ref counter (rendered as the decimal ref) strictly increases
across successive sends. -/
theorem C7_send_frame (s : WSClientState) (channel event channel2 event2 : String)
    (payload payload2 : JValue) :
    (s.websocket = false →
      send_message s channel event payload
        = .error (.connectionError "WebSocket chưa được kết nối")) ∧
    (s.websocket = true →
      send_message s channel event payload
        = .ok ({ s with ref_counter := s.ref_counter + 1 },
            [.str (toString (s.ref_counter + 1)), .str (toString (s.ref_counter + 1)),
             .str channel, .str event, payload]) ∧
      send_message { s with ref_counter := s.ref_counter + 1 } channel2 event2 payload2
        = .ok ({ s with ref_counter := s.ref_counter + 2 },
            [.str (toString (s.ref_counter + 2)), .str (toString (s.ref_counter + 2)),
             .str channel2, .str event2, payload2]) ∧
      s.ref_counter + 1 < s.ref_counter + 2) := by
  constructor
  · intro h
    simp [send_message, h]
  · intro h
    refine ⟨?_, ?_, by omega⟩
    · simp [send_message, h, get_next_ref]
    · simp only [send_message, get_next_ref, h]
      norm_num

/-- Witness for C7: a closed session rejects the send; an open session with
counter 0 emits refs 1 then 2. -/
theorem C7_send_frame_witness :
    send_message ⟨false, 0, false⟩ "pages:1" "phx_join" (.obj [])
        = .error (.connectionError "WebSocket chưa được kết nối") ∧
    (send_message ⟨true, 0, true⟩ "pages:1" "phx_join" (.obj [])
        = .ok (⟨true, 1, true⟩,
            [.str (toString 1), .str (toString 1), .str "pages:1", .str "phx_join", .obj []]) ∧
      send_message ⟨true, 1, true⟩ "users:u" "phx_join" (.obj [])
        = .ok (⟨true, 2, true⟩,
            [.str (toString 2), .str (toString 2), .str "users:u", .str "phx_join", .obj []]) ∧
      (0 : Nat) + 1 < 0 + 2) :=
  ⟨(C7_send_frame ⟨false, 0, false⟩ "pages:1" "phx_join" "c2" "e2" (.obj []) (.obj [])).1 rfl,
   (C7_send_frame ⟨true, 0, true⟩ "pages:1" "phx_join" "users:u" "phx_join"
      (.obj []) (.obj [])).2 rfl⟩

theorem run_handlers_eq_map (hs : List WSHandler) (p : JValue) :
    run_handlers hs p = hs.map (fun g => g p) := by
  induction hs with
  | nil => rfl
  | cons g hs ih => simp [run_handlers, ih]

/-- C8: the message handler never propagates an exception to the read loop:
undecodable, non-list, or short frames are dropped with no handler invoked,
and a registered handler's failure is caught at the dispatch boundary — the
remaining handlers still all run on the frame's payload. -/
theorem C8_handler_isolation (registry : List (String × List WSHandler))
    (data : JValue) (elems : List JValue) (h : WSHandler) (hs : List WSHandler)
    (p : JValue) (err : String)
    (hlen : elems.length < 4) (hnotarr : ∀ l, data ≠ JValue.arr l)
    (hfail : h p = .error err) :
    handle_message registry none = ⟨true, []⟩ ∧
    handle_message registry (some (.arr elems)) = ⟨true, []⟩ ∧
    handle_message registry (some data) = ⟨true, []⟩ ∧
    run_handlers (h :: hs) p = .error err :: hs.map (fun g => g p) ∧
    (∀ hs2 : List WSHandler, run_handlers hs2 p = hs2.map (fun g => g p)) ∧
    (∀ es : List JValue, 4 ≤ es.length → jTruthy (es.getD 3 .null) = true →
      handle_message registry (some (.arr es))
        = ⟨false, run_handlers (handlersFor registry (es.getD 3 .null))
            (es.getD 4 (.obj []))⟩) := by
  refine ⟨rfl, ?_, ?_, ?_, fun hs2 => run_handlers_eq_map hs2 p, ?_⟩
  · simp [handle_message, hlen]
  · cases data <;> first | rfl | exact absurd rfl (hnotarr _)
  · simp [run_handlers, hfail, run_handlers_eq_map]
  · intro es h4 htru
    simp only [handle_message]
    rw [if_neg (Nat.not_lt.mpr h4), if_pos htru]

/-- A handler that always raises, for the C8 witness. -/
def boomHandler : WSHandler := fun _ => Except.error "boom"

/-- A handler that succeeds, for the C8 witness. -/
def okHandler : WSHandler := fun _ => Except.ok ()

/-- Witness for C8: an empty frame and a non-list frame are dropped; a
failing handler does not stop a later handler from running. -/
theorem C8_handler_isolation_witness :
    handle_message [("ev", [boomHandler])] none = ⟨true, []⟩ ∧
    handle_message [("ev", [boomHandler])] (some (.arr [])) = ⟨true, []⟩ ∧
    handle_message [("ev", [boomHandler])] (some (.str "x")) = ⟨true, []⟩ ∧
    run_handlers [boomHandler, okHandler] (.obj [])
      = .error "boom" :: [okHandler].map (fun g => g (.obj [])) ∧
    (∀ hs2 : List WSHandler,
      run_handlers hs2 (.obj []) = hs2.map (fun g => g (.obj []))) ∧
    (∀ es : List JValue, 4 ≤ es.length → jTruthy (es.getD 3 .null) = true →
      handle_message [("ev", [boomHandler])] (some (.arr es))
        = ⟨false, run_handlers
            (handlersFor [("ev", [boomHandler])] (es.getD 3 .null))
            (es.getD 4 (.obj []))⟩) :=
  C8_handler_isolation [("ev", [boomHandler])] (.str "x") []
    boomHandler [okHandler] (.obj []) "boom"
    (by decide) (fun l hl => JValue.noConfusion hl) rfl

end PancakeBot
